import Mathlib

/-!
# Verification model of the youtube-backend user controller

Shallow embedding of `src/controllers/user.controller.js` (registration,
login, logout, token refresh, password change, channel profile and watch
history).  The document store (Mongo/Mongoose) is modelled as explicit
lists of records; each controller is a pure function from the store state
and the request data to an `Except` result together with the updated
store.  Components of the repository that are not part of the provided
source (the Mongoose models, the password hasher, the Cloudinary client)
are modelled from the specification and marked as such in their doc
comments.
-/

namespace YtBackend

/-- Errors a controller can surface: `api s m` models a thrown
`ApiError(s, m)` (an HTTP status plus a message); `typeErr m` models an
uncaught JavaScript `TypeError` raised by the handler body, which the
error middleware surfaces as an internal failure, not as an `ApiError`. -/
inductive JsError where
  | api : Nat → String → JsError
  | typeErr : String → JsError
deriving DecidableEq, Repr

/-- Modelled from the spec: the Token Service signs tokens binding the
account identity with an independent secret and expiry per kind
(`generateAccessToken` / `generateRefreshToken` live in the absent
`user.model.js`).  A token is a pure function of identity, issue time and
the signing secret; two tokens are the same string exactly when all the
signed fields agree. -/
structure Token where
  sub : Nat
  iat : Nat
  expiry : Nat
  secret : Nat
deriving DecidableEq, Repr

/-- The `ACCESS_TOKEN_SECRET` environment value, abstracted. -/
def ACCESS_TOKEN_SECRET : Nat := 0

/-- The `REFRESH_TOKEN_SECRET` environment value, abstracted. -/
def REFRESH_TOKEN_SECRET : Nat := 1

/-- The access-token validity window, abstracted. -/
def ACCESS_TOKEN_EXPIRY : Nat := 1

/-- The refresh-token validity window, abstracted. -/
def REFRESH_TOKEN_EXPIRY : Nat := 10

/-- Modelled from the spec: the Password Hasher is a one-way hash used by
the absent `user.model.js` pre-save hook; only `verify(candidate, hash)`
is observable, so any injective tagging models it faithfully. -/
def hashPassword (p : String) : String := "hashed:" ++ p

/-- An Account document as stored (fields of the Mongoose `User` model:
handle, email, display name, hashed password, avatar and cover URLs, the
watch-history reference sequence, and the persisted refresh-token slot). -/
structure Account where
  id : Nat
  userName : String
  email : String
  fullName : String
  passwordHash : String
  avatar : String
  coverImage : String
  watchHistory : List Nat
  refreshToken : Option Token
deriving DecidableEq, Repr

/-- A Subscription Edge document: directed subscriber → channel relation. -/
structure Subscription where
  id : Nat
  subscriber : Nat
  channel : Nat
deriving DecidableEq, Repr

/-- A Media Item (video) document: owner reference plus descriptive
fields (modelled from the spec; `video.model.js` is not in the provided
source). -/
structure Video where
  id : Nat
  title : String
  owner : Nat
deriving DecidableEq, Repr

/-- The persistent store: the `users`, `subscriptions` and `videos`
collections. -/
structure DB where
  users : List Account
  subscriptions : List Subscription
  videos : List Video
deriving Repr

/-- JavaScript `String.prototype.toLowerCase`, character-wise (basic
latin, as `Char.toLower`). -/
def jsToLowerCase (s : String) : String := String.mk (s.data.map Char.toLower)

/-- JavaScript whitespace recognised by `String.prototype.trim`. -/
def isJsSpace (c : Char) : Bool :=
  c == ' ' || c == '\t' || c == '\n' || c == '\r'

/-- JavaScript `String.prototype.trim`: strip whitespace at both ends. -/
def jsTrim (s : String) : String :=
  String.mk (((s.data.dropWhile isJsSpace).reverse.dropWhile isJsSpace).reverse)

/-- `User.findById`: first document whose `_id` matches. -/
def findById (db : DB) (id : Nat) : Option Account :=
  db.users.find? (fun u => u.id == id)

/-- `User.findOne` on an `$or` of `userName` / `email` equality filters.
Modelled from the spec for the handle: the Account schema (absent
`user.model.js`) declares the handle with a lowercase setter that
Mongoose also applies to query-filter values, so handle lookups are
case-insensitive against the lowercase stored value, matching the spec's
case-insensitive-handle uniqueness invariant.  Email matching is exact. -/
def findOneByUserNameOrEmail (db : DB) (email? userName? : Option String) :
    Option Account :=
  db.users.find? (fun u =>
    (match email? with
     | some e => u.email == e
     | none => false) ||
    (match userName? with
     | some n => u.userName == jsToLowerCase n
     | none => false))

/-- `findByIdAndUpdate` / `save`: rewrite the documents whose `_id`
matches. -/
def updateById (db : DB) (id : Nat) (f : Account → Account) : DB :=
  { db with users := db.users.map (fun u => if u.id == id then f u else u) }

/-- `user.generateAccessToken()` — modelled from the spec (the method is
declared in the absent `user.model.js`): sign the identity with the
access secret and expiry at the current time. -/
def generateAccessToken (u : Account) (now : Nat) : Token :=
  { sub := u.id, iat := now, expiry := now + ACCESS_TOKEN_EXPIRY,
    secret := ACCESS_TOKEN_SECRET }

/-- `user.generateRefreshToken()` — modelled from the spec, as above but
with the refresh secret and expiry. -/
def generateRefreshToken (u : Account) (now : Nat) : Token :=
  { sub := u.id, iat := now, expiry := now + REFRESH_TOKEN_EXPIRY,
    secret := REFRESH_TOKEN_SECRET }

/-- `jwt.verify(token, secret)` at the current time: the decoded payload
(`_id`) when the signature matches and the token has not expired. -/
def jwtVerify (t : Token) (secret : Nat) (now : Nat) : Option Nat :=
  if t.secret == secret && now < t.expiry then some t.sub else none

/-- `user.isPasswordCorrect(password)` — modelled from the spec: hasher
verify of the candidate against the stored hash. -/
def isPasswordCorrect (u : Account) (candidate : String) : Bool :=
  hashPassword candidate == u.passwordHash

/-- `generateAccessAndRefreshToken(userId)` (controller lines 10–24):
fetch the user, mint both tokens, persist the refresh token on the user
(`user.save`), and return the pair with the updated store.  Any failure
inside is rethrown as the 500 `ApiError`. -/
def generateAccessAndRefreshToken (db : DB) (userId : Nat) (now : Nat) :
    Except JsError (Token × Token × DB) :=
  match findById db userId with
  | none =>
      .error (.api 500
        "Something went wrong while generating access and refresh token")
  | some u =>
      let accessToken := generateAccessToken u now
      let refreshToken := generateRefreshToken u now
      let db1 := updateById db u.id (fun x => { x with refreshToken := some refreshToken })
      .ok (accessToken, refreshToken, db1)

/-- The uploaded files of a register request, as multer's
`req.files`: the whole object may be absent, and each field holds the
list of uploaded file paths when present. -/
structure Files where
  avatar : Option (List String)
  coverImage : Option (List String)
deriving DecidableEq, Repr

/-- The body of a register request. -/
structure RegisterReq where
  fullName : String
  email : String
  userName : String
  password : String
  files : Option Files
deriving DecidableEq, Repr

/-- `req.files?.avatar[0]?.path` (controller line 46).  The optional
chain guards only `req.files` itself: when `req.files` is present but has
no `avatar` entry, `req.files.avatar` is `undefined` and the `[0]`
subscript throws a `TypeError`. -/
def avatarLocalPath (files : Option Files) : Except JsError (Option String) :=
  match files with
  | none => .ok none
  | some f =>
      match f.avatar with
      | none => .error (.typeErr "Cannot read properties of undefined (reading 0)")
      | some l => .ok l.head?

/-- Controller lines 51–54: the cover path is read only after checking
that `req.files.coverImage` is a non-empty array. -/
def coverImageLocalPath (files : Option Files) : Option String :=
  match files with
  | some f =>
      match f.coverImage with
      | some (p :: _) => some p
      | _ => none
  | none => none

/-- `uploadOnCloudinary` — modelled from the spec: the media resolver is
out of scope and the core only consumes the resulting opaque URL; the
util returns null when given no local path. -/
def uploadOnCloudinary (path : Option String) : Option String :=
  path.map (fun p => "https://cdn/" ++ p)

/-- A user document as returned to the caller after a `.select`
projection: the `password` / `refreshToken` components are `none` exactly
when the corresponding field was stripped from the response. -/
structure UserView where
  id : Nat
  userName : String
  email : String
  fullName : String
  avatar : String
  coverImage : String
  watchHistory : List Nat
  password : Option String
  refreshToken : Option Token
deriving DecidableEq, Repr

/-- `.select("-a -b")` with exclusion list `excluded`: a field is kept
unless its (exact) name is excluded; excluding a name that is not a
schema path is a no-op. -/
def selectUser (u : Account) (excluded : List String) : UserView :=
  { id := u.id, userName := u.userName, email := u.email,
    fullName := u.fullName, avatar := u.avatar, coverImage := u.coverImage,
    watchHistory := u.watchHistory,
    password := if excluded.contains "password" then none else some u.passwordHash,
    refreshToken := if excluded.contains "refreshToken" then none else u.refreshToken }

/-- The next `_id` the store assigns on insert. -/
def freshId (db : DB) : Nat := (db.users.map (fun u => u.id)).foldr max 0 + 1

/-- `registerUser` (controller lines 27–92): blank-after-trim validation,
duplicate check by handle or email, avatar presence check, uploads, user
creation (handle lowercased, password hashed by the model's pre-save
hook), and the public view selected without `password` / `refreshToken`. -/
def registerUser (db : DB) (req : RegisterReq) :
    Except JsError (UserView × DB) :=
  if [req.fullName, req.email, req.userName, req.password].any
      (fun field => jsTrim field == "") then
    .error (.api 400 "All fields are required")
  else
    match findOneByUserNameOrEmail db (some req.email) (some req.userName) with
    | some _ => .error (.api 409 "User already exists on this email or userName")
    | none =>
        match avatarLocalPath req.files with
        | .error e => .error e
        | .ok avatarPath =>
            if avatarPath.isNone then
              .error (.api 400 "Avatar file is required")
            else
              let coverPath := coverImageLocalPath req.files
              let avatar := uploadOnCloudinary avatarPath
              let coverImage := uploadOnCloudinary coverPath
              match avatar with
              | none => .error (.api 400 "Avatar file is required")
              | some avatarUrl =>
                  let newUser : Account :=
                    { id := freshId db,
                      userName := jsToLowerCase req.userName,
                      email := req.email,
                      fullName := req.fullName,
                      passwordHash := hashPassword req.password,
                      avatar := avatarUrl,
                      coverImage := (coverImage.getD ""),
                      watchHistory := [],
                      refreshToken := none }
                  let db1 : DB := { db with users := db.users ++ [newUser] }
                  match findById db1 newUser.id with
                  | none => .error (.api 500 "User creation failed on server side")
                  | some created =>
                      .ok (selectUser created ["password", "refreshToken"], db1)

/-- `loginUser` (controller lines 96–148): find by email or handle,
verify the password, issue and persist the token pair, and return the
view selected with the misspelled exclusion `-passworrd -refreshToken`
exactly as written in the source. -/
def loginUser (db : DB) (email? userName? : Option String) (password : String)
    (now : Nat) : Except JsError (Option UserView × Token × Token × DB) :=
  if email?.isNone && userName?.isNone then
    .error (.api 400 "email or userName is required")
  else
    match findOneByUserNameOrEmail db email? userName? with
    | none => .error (.api 404 "User not found")
    | some user =>
        if !(isPasswordCorrect user password) then
          .error (.api 401 "Invalid user credentials")
        else
          match generateAccessAndRefreshToken db user.id now with
          | .error e => .error e
          | .ok (accessToken, refreshToken, db1) =>
              let loggedInUser :=
                (findById db1 user.id).map
                  (fun u => selectUser u ["passworrd", "refreshToken"])
              .ok (loggedInUser, accessToken, refreshToken, db1)

/-- `logoutUser` (controller lines 151–173): the update document is
`$set` of `refreshToken` to the JavaScript value `undefined`; Mongoose
removes keys whose value is `undefined` from update documents before
sending them, so the effective update is empty and the stored document is
unchanged. -/
def logoutUser (db : DB) (userId : Nat) : DB :=
  updateById db userId (fun u => u)

/-- A refresh request as the handler receives it: cookie-parser exposes
the parsed cookies on `req.cookies` and the JSON body on `req.body`, and
either may carry a refresh token.  No middleware of this app defines a
`req.cookie` property. -/
structure RefreshReq where
  cookiesRefreshToken : Option Token
  bodyRefreshToken : Option Token
deriving DecidableEq, Repr

/-- `refreshAccessToken` (controller lines 176–216).  Line 177 computes
`req.cookie.refreshToken || req.body.refreshToken`, but the request has
no `cookie` property — cookie-parser populates `req.cookies`, not
`req.cookie` — so the property access throws a `TypeError`.  The line
sits above the `try` opened at line 183, so the catch that wraps
failures into 401 responses never runs: every refresh request fails with
this internal error, whatever tokens its cookies or body carry.  The
rest of the handler (lines 179–216) is
`refreshAccessTokenAfterExtraction` below and is never reached. -/
def refreshAccessToken (db : DB) (req : RefreshReq) (now : Nat) :
    Except JsError (Token × Token × DB) :=
  .error (.typeErr "Cannot read properties of undefined (reading refreshToken)")

/-- Controller lines 179–216: the handler logic from the
`if(!incomingRefreshToken)` check onward, applied to an already
extracted token — absent token → 401; failed `jwt.verify` → 401;
unknown account → 401; mismatch against the persisted slot → 401;
otherwise rotate the pair as in login.  In the program this code is
unreachable, because line 177 throws first (see `refreshAccessToken`);
it is modelled separately because it is the behaviour the spec
describes. -/
def refreshAccessTokenAfterExtraction (db : DB) (incoming : Option Token) (now : Nat) :
    Except JsError (Token × Token × DB) :=
  match incoming with
  | none => .error (.api 401 "Unauthorized request")
  | some t =>
      match jwtVerify t REFRESH_TOKEN_SECRET now with
      | none => .error (.api 401 "Invalid refresh token")
      | some decodedId =>
          match findById db decodedId with
          | none => .error (.api 401 "Invalid refresh token")
          | some user =>
              if some t ≠ user.refreshToken then
                .error (.api 401 "Refresh token is expired")
              else
                generateAccessAndRefreshToken db user.id now

/-- A dynamic BSON-style value, used to model the documents produced by
the aggregation pipelines (where field presence matters). -/
inductive Val where
  | vnat : Nat → Val
  | vstr : String → Val
  | vbool : Bool → Val
  | varr : List Val → Val
  | vdoc : List (String × Val) → Val

/-- A BSON-style document: an ordered association list of fields. -/
abbrev Doc : Type := List (String × Val)

/-- The value of a field of a document, `none` when the field is absent. -/
def lookupField (d : Doc) (k : String) : Option Val :=
  (d.find? (fun kv => kv.1 == k)).map (fun kv => kv.2)

/-- The field names of a document, in order. -/
def docKeys (d : Doc) : List String := d.map (fun kv => kv.1)

/-- An Account document as the aggregation pipeline sees it (every stored
field, including the password hash and, when present, the refresh-token
slot). -/
def userDoc (u : Account) : Doc :=
  [("_id", .vnat u.id), ("userName", .vstr u.userName),
   ("email", .vstr u.email), ("fullName", .vstr u.fullName),
   ("avatar", .vstr u.avatar), ("coverImage", .vstr u.coverImage),
   ("password", .vstr u.passwordHash),
   ("watchHistory", .varr (u.watchHistory.map .vnat))]
  ++ (match u.refreshToken with
      | some t => [("refreshToken", .vstr (toString t.sub ++ ":" ++ toString t.iat))]
      | none => [])

/-- A Subscription document as the pipeline sees it. -/
def subscriptionDoc (s : Subscription) : Doc :=
  [("_id", .vnat s.id), ("subscriber", .vnat s.subscriber),
   ("channel", .vnat s.channel)]

/-- A `$project` stage with an inclusion list: keep `_id` (included by
default) and the listed fields; including a name the document does not
carry yields no field. -/
def projectInclude (fields : List String) (d : Doc) : Doc :=
  d.filter (fun kv => kv.1 == "_id" || fields.contains kv.1)

/-- The `$project` inclusion list of `getUserChannelProfile`
(controller lines 397–408), exactly as written in the source. -/
def channelProjectionFields : List String :=
  ["fullName", "userName", "subscribersCount", "channelsSubscribedToCount",
   "isSubscribed", "avatar", "coverImage", "email"]

/-- The pipeline body of `getUserChannelProfile` applied to one matched
account: the two `$lookup`s into `subscriptions` (by `channel` and by
`subscriber`), the `$addFields` deriving both counts and the
`$in`-membership flag (`false` when no authenticated viewer is present),
and the final `$project`. -/
def channelDocOf (db : DB) (viewer : Option Nat) (u : Account) : Doc :=
  let subscribers := db.subscriptions.filter (fun s => s.channel == u.id)
  let subscribedTo := db.subscriptions.filter (fun s => s.subscriber == u.id)
  let isSub : Bool :=
    match viewer with
    | some v => subscribers.any (fun s => s.subscriber == v)
    | none => false
  projectInclude channelProjectionFields
    (userDoc u
      ++ [("subscribers", .varr (subscribers.map (fun s => .vdoc (subscriptionDoc s)))),
          ("subscribedTo", .varr (subscribedTo.map (fun s => .vdoc (subscriptionDoc s)))),
          ("subscribersCount", .vnat subscribers.length),
          ("channelsSubscribedToCount", .vnat subscribedTo.length),
          ("isSubscribed", .vbool isSub)])

/-- `getUserChannelProfile` (controller lines 349–420): 400 on a missing
or blank handle, `$match` on the lowercased handle, the pipeline above,
404 when no account matched, else the first matched document. -/
def getUserChannelProfile (db : DB) (username? : Option String)
    (viewer : Option Nat) : Except JsError Doc :=
  match username? with
  | none => .error (.api 400 "UserName is missing")
  | some username =>
      if jsTrim username == "" then
        .error (.api 400 "UserName is missing")
      else
        let channel := (db.users.filter
          (fun u => u.userName == jsToLowerCase username)).map
          (channelDocOf db viewer)
        match channel with
        | [] => .error (.api 404 "Channel not found")
        | d :: _ => .ok d

/-- The owner sub-`$project` of `getWatchHistory` (controller lines
444–448), exactly as written in the source, with the misspelled
`avater`. -/
def ownerProjectionFields : List String := ["fullName", "userName", "avater"]

/-- One watch-history item after the inner pipeline of `getWatchHistory`:
the video's fields with `owner` replaced by the `$lookup` into `users`
(each match projected by `ownerProjectionFields`) collapsed by
`$addFields` with `$first` — a single document when the owner exists,
and an absent field when the lookup came back empty (`$first` of an
empty array is missing, so `$addFields` omits the field). -/
def watchItemDoc (db : DB) (v : Video) : Doc :=
  let ownerDocs := (db.users.filter (fun ou => ou.id == v.owner)).map
    (fun ou => projectInclude ownerProjectionFields (userDoc ou))
  [("_id", .vnat v.id), ("title", .vstr v.title)]
  ++ (match ownerDocs.head? with
      | some d => [("owner", .vdoc d)]
      | none => [])

/-- `getWatchHistory` (controller lines 422–470): `$match` the account by
`_id`, `$lookup` its `watchHistory` reference sequence into `videos`
(references whose target is gone simply produce no joined document and
are dropped; matches are returned in the order of the stored reference
sequence — the join facility is modelled from the spec here, which fixes
that order), apply the inner owner pipeline to each item, and return
`user[0].watchHistory` (a `TypeError` when no account matched). -/
def getWatchHistory (db : DB) (userId : Nat) : Except JsError (List Doc) :=
  let matched := db.users.filter (fun u => u.id == userId)
  match matched with
  | [] => .error (.typeErr "Cannot read properties of undefined (reading watchHistory)")
  | u :: _ =>
      .ok (u.watchHistory.filterMap (fun vid =>
        (db.videos.find? (fun v => v.id == vid)).map (watchItemDoc db)))

/-- `changeCurrentPassword` (controller lines 218–234): wrong old
password → `ApiError(400, "Invalid old password")`; otherwise the stored
hash becomes the hash of the new password (pre-save hook, modelled from
the spec). -/
def changeCurrentPassword (db : DB) (userId : Nat) (oldPassword newPassword : String) :
    Except JsError (Unit × DB) :=
  match findById db userId with
  | none => .error (.typeErr "Cannot read properties of null (reading isPasswordCorrect)")
  | some user =>
      if !(isPasswordCorrect user oldPassword) then
        .error (.api 400 "Invalid old password")
      else
        .ok ((), updateById db user.id
          (fun u => { u with passwordHash := hashPassword newPassword }))

/-! ## Concrete fixtures used by the closed theorems and witnesses -/

/-- An empty store. -/
def dbEmpty : DB := { users := [], subscriptions := [], videos := [] }

/-- A valid registration request. -/
def regReqBob : RegisterReq :=
  { fullName := "Bob Smith", email := "bob@x.com", userName := "Bob",
    password := "pw1", files := some { avatar := some ["a.png"], coverImage := none } }

/-- The account `regReqBob` creates. -/
def bobAccount : Account :=
  { id := 1, userName := "bob", email := "bob@x.com", fullName := "Bob Smith",
    passwordHash := hashPassword "pw1", avatar := "https://cdn/a.png",
    coverImage := "", watchHistory := [], refreshToken := none }

/-- The store holding only `bobAccount`. -/
def dbBob : DB := { users := [bobAccount], subscriptions := [], videos := [] }

/-- The refresh token issued to `bobAccount` at time 0. -/
def rTok0 : Token :=
  { sub := 1, iat := 0, expiry := REFRESH_TOKEN_EXPIRY,
    secret := REFRESH_TOKEN_SECRET }

/-- The access token issued to `bobAccount` at time 0. -/
def aTok0 : Token :=
  { sub := 1, iat := 0, expiry := ACCESS_TOKEN_EXPIRY,
    secret := ACCESS_TOKEN_SECRET }

/-- `bobAccount` with the refresh token of a login at time 0 persisted. -/
def bobLoggedIn : Account := { bobAccount with refreshToken := some rTok0 }

/-- The store after that login. -/
def dbBobLoggedIn : DB :=
  { users := [bobLoggedIn], subscriptions := [], videos := [] }

/-- The view login returns for Bob (selected with the misspelled
`-passworrd`). -/
def vBobLogin : UserView := selectUser bobLoggedIn ["passworrd", "refreshToken"]

/-- A channel account, for the profile fixtures. -/
def chanAccount : Account :=
  { id := 1, userName := "chan", email := "chan@x.com", fullName := "Chan C",
    passwordHash := hashPassword "pc", avatar := "https://cdn/c.png",
    coverImage := "https://cdn/cc.png", watchHistory := [], refreshToken := none }

/-- Subscriber account A. -/
def accA : Account :=
  { id := 2, userName := "aa", email := "a@x.com", fullName := "A A",
    passwordHash := hashPassword "pa", avatar := "https://cdn/aa.png",
    coverImage := "", watchHistory := [], refreshToken := none }

/-- Subscriber account B. -/
def accB : Account :=
  { id := 3, userName := "bb", email := "b@x.com", fullName := "B B",
    passwordHash := hashPassword "pb", avatar := "https://cdn/bb.png",
    coverImage := "", watchHistory := [], refreshToken := none }

/-- Channel store: accounts A and B both subscribe to the channel. -/
def dbChan : DB :=
  { users := [chanAccount, accA, accB],
    subscriptions :=
      [{ id := 1, subscriber := 2, channel := 1 },
       { id := 2, subscriber := 3, channel := 1 }],
    videos := [] }

/-- The owning account of the watch-history fixture videos. -/
def ownerAcc : Account :=
  { id := 2, userName := "owner", email := "o@x.com", fullName := "Owner O",
    passwordHash := hashPassword "po", avatar := "https://cdn/o.png",
    coverImage := "", watchHistory := [], refreshToken := none }

/-- The viewing account: its history references videos 10, 99 (deleted),
12 and 11, in that order. -/
def viewerAcc : Account :=
  { id := 1, userName := "viewer", email := "v@x.com", fullName := "View V",
    passwordHash := hashPassword "pv", avatar := "https://cdn/v.png",
    coverImage := "", watchHistory := [10, 99, 12, 11], refreshToken := none }

/-- Fixture video 10, owned by `ownerAcc`. -/
def vid10 : Video := { id := 10, title := "t10", owner := 2 }

/-- Fixture video 11, owned by `ownerAcc`. -/
def vid11 : Video := { id := 11, title := "t11", owner := 2 }

/-- Fixture video 12, whose owning account no longer exists. -/
def vid12 : Video := { id := 12, title := "t12", owner := 77 }

/-- Watch-history store. -/
def dbWH : DB :=
  { users := [viewerAcc, ownerAcc], subscriptions := [],
    videos := [vid10, vid11, vid12] }

/-- The owner projection the source actually produces for `ownerAcc`
(with the misspelled `avater` inclusion, the avatar is absent and `_id`
is present). -/
def ownerProjDocO : Doc :=
  [("_id", Val.vnat 2), ("userName", Val.vstr "owner"),
   ("fullName", Val.vstr "Owner O")]

/-- All stored handles are lowercase-normal (the Account schema's
lowercase setter, modelled from the spec, guarantees this for every
document written through the model). -/
def handlesStoredLowercase (db : DB) : Prop :=
  ∀ u ∈ db.users, u.userName = jsToLowerCase u.userName

/-- No two stored accounts share a handle case-insensitively. -/
def handlesUniqueCI (db : DB) : Prop :=
  db.users.Pairwise (fun a b => jsToLowerCase a.userName ≠ jsToLowerCase b.userName)

/-- No two stored accounts share an email. -/
def emailsUnique (db : DB) : Prop :=
  db.users.Pairwise (fun a b => a.email ≠ b.email)

/-! ## Helper lemmas -/

/-- Packing a valid codepoint and reading it back is the identity. -/
theorem toNat_ofNat_valid {m : Nat} (h : m.isValidChar) : (Char.ofNat m).toNat = m := by
  rw [Char.ofNat, dif_pos h]
  rfl

/-- `Char.toLower` is idempotent. -/
theorem charToLowerIdem (c : Char) : c.toLower.toLower = c.toLower := by
  by_cases h : c.toNat ≥ 65 ∧ c.toNat ≤ 90
  · have h1 : Char.toLower c = Char.ofNat (c.toNat + 32) := by
      rw [Char.toLower, if_pos h]
    have hv : (c.toNat + 32).isValidChar := Or.inl (by omega)
    have ht : (Char.toLower c).toNat = c.toNat + 32 := by
      rw [h1, toNat_ofNat_valid hv]
    rw [Char.toLower, if_neg (by omega)]
  · have h1 : Char.toLower c = c := by
      rw [Char.toLower, if_neg h]
    rw [h1, h1]

/-- Mapping `Char.toLower` twice over a character list is mapping it
once. -/
theorem mapToLowerIdem (l : List Char) :
    (l.map Char.toLower).map Char.toLower = l.map Char.toLower := by
  induction l with
  | nil => rfl
  | cons a t ih => simp only [List.map_cons, charToLowerIdem, ih]

/-- `jsToLowerCase` is idempotent. -/
theorem jsToLowerIdem (s : String) :
    jsToLowerCase (jsToLowerCase s) = jsToLowerCase s := by
  simp only [jsToLowerCase]
  rw [mapToLowerIdem]

/-- Reading a document after an id-preserving update is reading it
before and applying the update. -/
theorem findById_updateById (db : DB) (i j : Nat) (f : Account → Account)
    (hf : ∀ u, (f u).id = u.id) :
    findById (updateById db i f) j =
      (findById db j).map (fun u => if u.id == i then f u else u) := by
  unfold findById updateById
  induction db.users with
  | nil => rfl
  | cons a t ih =>
      have hga : ((if (a.id == i) = true then f a else a).id == j) = (a.id == j) := by
        by_cases hai : (a.id == i) = true <;> simp [hai, hf]
      by_cases haj : (a.id == j) = true
      · simp only [List.map_cons, List.find?_cons, hga, haj]
        rfl
      · have haj' : (a.id == j) = false := by
          cases hb : (a.id == j) with
          | true => exact absurd hb haj
          | false => rfl
        simp only [List.map_cons, List.find?_cons, hga, haj']
        exact ih

/-- What a successful `generateAccessAndRefreshToken` consists of. -/
theorem gen_ok (db : DB) (uid now : Nat) (a r : Token) (db1 : DB)
    (h : generateAccessAndRefreshToken db uid now = .ok (a, r, db1)) :
    ∃ w, findById db uid = some w ∧ a = generateAccessToken w now ∧
      r = generateRefreshToken w now ∧
      db1 = updateById db w.id
        (fun x => { x with refreshToken := some (generateRefreshToken w now) }) := by
  unfold generateAccessAndRefreshToken at h
  cases hf : findById db uid with
  | none => rw [hf] at h; cases h
  | some w =>
      rw [hf] at h
      simp only [Except.ok.injEq, Prod.mk.injEq] at h
      exact ⟨w, rfl, h.1.symm, h.2.1.symm, h.2.2.symm⟩

/-- What a successful `loginUser` consists of. -/
theorem login_ok (db : DB) (e? n? : Option String) (pw : String) (t : Nat)
    (v : Option UserView) (a r : Token) (db1 : DB)
    (h : loginUser db e? n? pw t = .ok (v, a, r, db1)) :
    ∃ user, findOneByUserNameOrEmail db e? n? = some user ∧
      isPasswordCorrect user pw = true ∧
      generateAccessAndRefreshToken db user.id t = .ok (a, r, db1) ∧
      v = (findById db1 user.id).map
        (fun u => selectUser u ["passworrd", "refreshToken"]) := by
  unfold loginUser at h
  split at h
  · cases h
  split at h
  · cases h
  rename_i user hfind
  split at h
  · cases h
  rename_i hpw
  split at h
  · cases h
  rename_i a' r' db1' hg
  simp only [Except.ok.injEq, Prod.mk.injEq] at h
  obtain ⟨hv, ha, hr, hdb⟩ := h
  refine ⟨user, hfind, by simpa using hpw, ?_, ?_⟩
  · rw [hg, ha, hr, hdb]
  · rw [← hv, hdb]

/-- A refresh presenting a token that no resolved account currently
persists fails with a 401 `ApiError`. -/
theorem refresh_stale_401 (db : DB) (t : Token) (now : Nat)
    (hst : ∀ w, findById db t.sub = some w → w.refreshToken ≠ some t) :
    ∃ m, refreshAccessTokenAfterExtraction db (some t) now = .error (.api 401 m) := by
  cases hv : jwtVerify t REFRESH_TOKEN_SECRET now with
  | none =>
      refine ⟨"Invalid refresh token", ?_⟩
      simp only [refreshAccessTokenAfterExtraction, hv]
  | some d =>
      have hd : d = t.sub := by
        unfold jwtVerify at hv
        split at hv
        · cases hv; rfl
        · cases hv
      subst hd
      cases hf : findById db t.sub with
      | none =>
          refine ⟨"Invalid refresh token", ?_⟩
          simp only [refreshAccessTokenAfterExtraction, hv, hf]
      | some w =>
          refine ⟨"Refresh token is expired", ?_⟩
          have hne : some t ≠ w.refreshToken := fun hc => hst w hf hc.symm
          simp only [refreshAccessTokenAfterExtraction, hv, hf]
          rw [if_pos hne]

/-- A refresh presenting exactly the persisted token of the resolved
account succeeds and rotates the pair. -/
theorem refresh_ok (db : DB) (t : Token) (now : Nat) (w : Account)
    (hver : jwtVerify t REFRESH_TOKEN_SECRET now = some t.sub)
    (hf : findById db t.sub = some w)
    (hmatch : w.refreshToken = some t) :
    refreshAccessTokenAfterExtraction db (some t) now =
      .ok (generateAccessToken w now, generateRefreshToken w now,
        updateById db w.id
          (fun x => { x with refreshToken := some (generateRefreshToken w now) })) := by
  have hwid : w.id = t.sub := by simpa using List.find?_some hf
  simp only [refreshAccessTokenAfterExtraction, hver, hf]
  rw [if_neg (by rw [hmatch]; exact fun hc => hc rfl)]
  simp only [generateAccessAndRefreshToken, hwid, hf]

/-- What a successful `registerUser` consists of. -/
theorem register_ok (db : DB) (req : RegisterReq) (v : UserView) (db1 : DB)
    (h : registerUser db req = .ok (v, db1)) :
    findOneByUserNameOrEmail db (some req.email) (some req.userName) = none ∧
    ∃ avatarUrl coverStr,
      db1 = { db with users := db.users ++
        [{ id := freshId db, userName := jsToLowerCase req.userName,
           email := req.email, fullName := req.fullName,
           passwordHash := hashPassword req.password, avatar := avatarUrl,
           coverImage := coverStr, watchHistory := [], refreshToken := none }] } := by
  unfold registerUser at h
  split at h
  · cases h
  split at h
  · cases h
  rename_i hnone
  split at h
  · cases h
  rename_i avatarPath hav
  split at h
  · cases h
  simp only [] at h
  split at h
  · cases h
  rename_i avatarUrl hurl
  split at h
  · cases h
  rename_i created hcreated
  simp only [Except.ok.injEq, Prod.mk.injEq] at h
  exact ⟨hnone, avatarUrl, _, h.2.symm⟩

/-- The channel-profile pipeline output, written out field by field: the
projection keeps `_id` plus the included stored fields and the three
derived fields, and drops the password, watch history, token slot and
the two joined arrays. -/
theorem channelDocOf_eq (db : DB) (viewer : Option Nat) (u : Account) :
    channelDocOf db viewer u =
      [("_id", .vnat u.id), ("userName", .vstr u.userName),
       ("email", .vstr u.email), ("fullName", .vstr u.fullName),
       ("avatar", .vstr u.avatar), ("coverImage", .vstr u.coverImage),
       ("subscribersCount",
         .vnat (db.subscriptions.filter (fun s => s.channel == u.id)).length),
       ("channelsSubscribedToCount",
         .vnat (db.subscriptions.filter (fun s => s.subscriber == u.id)).length),
       ("isSubscribed", .vbool (match viewer with
         | some v => (db.subscriptions.filter
             (fun s => s.channel == u.id)).any (fun s => s.subscriber == v)
         | none => false))] := by
  cases hrt : u.refreshToken with
  | none => simp only [channelDocOf, userDoc, hrt]; rfl
  | some t => simp only [channelDocOf, userDoc, hrt]; rfl

/-- Two optional boolean field values agree with `true` exactly when the
boolean does. -/
theorem vbool_some_eq (b : Bool) :
    (some (Val.vbool b) = some (Val.vbool true)) ↔ b = true := by
  constructor
  · intro h
    injection h with h1
    injection h1
  · intro h
    rw [h]

/-! ## Claim theorems -/

/-- C1: the register view strips both sensitive fields, but the login
view is selected with the misspelled exclusion `-passworrd`, so for a
successful login the returned account view still contains the stored
password hash (the refresh-token field is stripped in both).  This
refutes the claim for the login flow and evaluates both flows at a
concrete input. -/
theorem claim_C1_login_view_contains_password_hash :
    ∃ v db1, registerUser dbEmpty regReqBob = .ok (v, db1) ∧
      v.password = none ∧ v.refreshToken = none ∧
      ∃ v2 a r db2,
        loginUser db1 (some "bob@x.com") none "pw1" 5 = .ok (some v2, a, r, db2) ∧
        v2.refreshToken = none ∧
        v2.password = some (hashPassword "pw1") :=
  ⟨_, _, rfl, rfl, rfl, _, _, _, _, rfl, rfl, rfl⟩

/-- C2: logout's update document sets `refreshToken` to the JavaScript
value `undefined`, which Mongoose strips from the update, so the
persisted refresh token is NOT cleared; and a refresh presenting the
pre-logout token does not fail with Unauthorized — every refresh request
crashes with line 177's `TypeError` before any token check; even the
handler's unreachable remainder would accept the stale token, because
the slot was never cleared.  This refutes the claim at a concrete
input. -/
theorem claim_C2_logout_noop_and_refresh_never_401 :
    logoutUser dbBobLoggedIn 1 = dbBobLoggedIn ∧
    findById (logoutUser dbBobLoggedIn 1) 1 = some bobLoggedIn ∧
    bobLoggedIn.refreshToken = some rTok0 ∧
    (∀ (req : RefreshReq) (now : Nat),
      refreshAccessToken (logoutUser dbBobLoggedIn 1) req now =
        .error (.typeErr "Cannot read properties of undefined (reading refreshToken)")) ∧
    ∃ a r db2,
      refreshAccessTokenAfterExtraction (logoutUser dbBobLoggedIn 1)
        (some rTok0) 5 = .ok (a, r, db2) :=
  ⟨rfl, rfl, rfl, fun req now => rfl, _, _, _, rfl⟩

/-- C5: the watch-history result preserves the stored reference order
and silently omits the dangling reference 99, but the owner projection
is written with the misspelled inclusion `avater`, so the owner view
contains `_id`, handle and display name and NOT the avatar — refuting
the claim's description of the owner projection at a concrete input
(the password and token fields are indeed absent). -/
theorem claim_C5_owner_projection_misses_avatar :
    getWatchHistory dbWH 1 =
      .ok [watchItemDoc dbWH vid10, watchItemDoc dbWH vid12, watchItemDoc dbWH vid11] ∧
    (getWatchHistory dbWH 1).toOption.map (List.map (fun d => lookupField d "_id")) =
      some [some (.vnat 10), some (.vnat 12), some (.vnat 11)] ∧
    lookupField (watchItemDoc dbWH vid10) "owner" = some (.vdoc ownerProjDocO) ∧
    docKeys ownerProjDocO = ["_id", "userName", "fullName"] ∧
    ownerAcc.avatar = "https://cdn/o.png" ∧
    lookupField ownerProjDocO "avatar" = none ∧
    lookupField ownerProjDocO "password" = none ∧
    lookupField ownerProjDocO "refreshToken" = none :=
  ⟨rfl, rfl, rfl, rfl, rfl, rfl, rfl, rfl⟩

/-- C8: blank-after-trim fields do fail with the 400 validation error,
and a request with no `req.files` at all does fail with the 400
missing-avatar error; but a request whose `req.files` is present without
an `avatar` entry (e.g. only a cover image was uploaded) makes
`req.files?.avatar[0]` throw a `TypeError`, not the MissingAsset
`ApiError` — refuting the claim at a concrete input. -/
theorem claim_C8_files_without_avatar_throws_type_error :
    registerUser dbEmpty { regReqBob with fullName := " " } =
      .error (.api 400 "All fields are required") ∧
    registerUser dbEmpty { regReqBob with files := none } =
      .error (.api 400 "Avatar file is required") ∧
    registerUser dbEmpty
        { regReqBob with
          files := some { avatar := none, coverImage := some ["c.png"] } } =
      .error (.typeErr "Cannot read properties of undefined (reading 0)") :=
  ⟨rfl, rfl, rfl⟩

/-- C3: line 177 reads `req.cookie.refreshToken` with `req.cookie`
undefined, above the `try`, so in the program every refresh request —
including one presenting the token a successful login just returned —
fails with an internal `TypeError` rather than succeeding or returning
401, refuting the claim.  The handler's remaining logic, which the
claim and the spec describe, is unreachable; it does implement exactly
the claimed behaviour: at a distinct unexpired time it rotates to a
different pair, and afterwards replaying the original token fails with
a 401 Unauthorized error. -/
theorem claim_C3_refresh_always_crashes_before_rotation :
    (∀ (db : DB) (req : RefreshReq) (now : Nat),
      refreshAccessToken db req now =
        .error (.typeErr "Cannot read properties of undefined (reading refreshToken)")) ∧
    (∀ (db : DB) (e? n? : Option String) (pw : String) (t1 t2 : Nat)
        (v : Option UserView) (a1 r1 : Token) (db1 : DB),
      loginUser db e? n? pw t1 = .ok (v, a1, r1, db1) →
      t2 ≠ t1 → t2 < t1 + REFRESH_TOKEN_EXPIRY →
      ∃ a2 r2 db2,
        refreshAccessTokenAfterExtraction db1 (some r1) t2 = .ok (a2, r2, db2) ∧
        (a2, r2) ≠ (a1, r1) ∧
        ∀ t3, ∃ m, refreshAccessTokenAfterExtraction db2 (some r1) t3 =
          .error (.api 401 m)) := by
  constructor
  · intro db req now
    rfl
  intro db e? n? pw t1 t2 v a1 r1 db1 hlogin hne hexp
  obtain ⟨user, hfind, hpw, hgen, hv⟩ :=
    login_ok db e? n? pw t1 v a1 r1 db1 hlogin
  obtain ⟨w, hw, ha1, hr1, hdb1⟩ := gen_ok db user.id t1 a1 r1 db1 hgen
  have hwid : w.id = user.id := by simpa using List.find?_some hw
  have hrsub : r1.sub = w.id := by rw [hr1]; rfl
  have hfw : findById db w.id = some w := by rw [hwid]; exact hw
  set wp : Account := { w with refreshToken := some (generateRefreshToken w t1) }
    with hwp
  have hfind1 : findById db1 w.id = some wp := by
    rw [hdb1, findById_updateById db w.id w.id
        (fun x => { x with refreshToken := some (generateRefreshToken w t1) })
        (fun u => rfl), hfw]
    simp [hwp]
  have hver : jwtVerify r1 REFRESH_TOKEN_SECRET t2 = some r1.sub := by
    rw [hr1]
    simp [jwtVerify, generateRefreshToken, hexp]
  have hf1 : findById db1 r1.sub = some wp := by
    rw [hrsub]; exact hfind1
  have hmatch1 : wp.refreshToken = some r1 := by rw [hwp, hr1]
  have hrot := refresh_ok db1 r1 t2 wp hver hf1 hmatch1
  refine ⟨_, _, _, hrot, ?_, ?_⟩
  · intro hc
    have hr2 : generateRefreshToken wp t2 = r1 := congrArg Prod.snd hc
    have ht : t2 = t1 := by
      rw [hr1] at hr2
      exact congrArg Token.iat hr2
    exact hne ht
  · intro t3
    apply refresh_stale_401
    intro w2 hw2
    rw [findById_updateById db1 wp.id r1.sub
        (fun x => { x with refreshToken := some (generateRefreshToken wp t2) })
        (fun u => rfl), hf1] at hw2
    simp only [Option.map_some', beq_self_eq_true, if_true] at hw2
    cases hw2.symm
    intro hcon
    simp only [Option.some.injEq] at hcon
    have ht : t2 = t1 := by
      rw [hr1] at hcon
      exact congrArg Token.iat hcon
    exact hne ht

/-- C4: under the store invariants (handles stored lowercase-normal and
unique case-insensitively, emails unique), a successful registration
preserves all three invariants, and a second otherwise-valid
registration reusing the first one's handle up to letter case, or its
email, fails with the 409 Conflict error. -/
theorem claim_C4_conflict_and_uniqueness
    (db : DB) (req1 req2 : RegisterReq) (v : UserView) (db1 : DB)
    (h1 : registerUser db req1 = .ok (v, db1))
    (hlc : handlesStoredLowercase db)
    (hci : handlesUniqueCI db) (hem : emailsUnique db) :
    (handlesStoredLowercase db1 ∧ handlesUniqueCI db1 ∧ emailsUnique db1) ∧
    ((jsToLowerCase req2.userName = jsToLowerCase req1.userName ∨
        req2.email = req1.email) →
      jsTrim req2.fullName ≠ "" → jsTrim req2.email ≠ "" →
      jsTrim req2.userName ≠ "" → jsTrim req2.password ≠ "" →
      registerUser db1 req2 =
        .error (.api 409 "User already exists on this email or userName")) := by
  obtain ⟨hnone, avatarUrl, coverStr, hdb1⟩ :=
    register_ok db req1 v db1 h1
  have hnone' : ∀ x ∈ db.users,
      x.email ≠ req1.email ∧ x.userName ≠ jsToLowerCase req1.userName := by
    intro x hx
    have hfe := hnone
    unfold findOneByUserNameOrEmail at hfe
    rw [List.find?_eq_none] at hfe
    have := hfe x hx
    simp only [Bool.or_eq_true, beq_iff_eq, not_or] at this
    exact this
  set newU : Account :=
    { id := freshId db, userName := jsToLowerCase req1.userName,
      email := req1.email, fullName := req1.fullName,
      passwordHash := hashPassword req1.password, avatar := avatarUrl,
      coverImage := coverStr, watchHistory := [], refreshToken := none }
    with hnewU
  have husers : db1.users = db.users ++ [newU] := by rw [hdb1]
  constructor
  · refine ⟨?_, ?_, ?_⟩
    · intro u hu
      rw [husers] at hu
      rcases List.mem_append.mp hu with hm | hm
      · exact hlc u hm
      · have : u = newU := by simpa using hm
        subst this
        show jsToLowerCase req1.userName = jsToLowerCase (jsToLowerCase req1.userName)
        exact (jsToLowerIdem req1.userName).symm
    · rw [handlesUniqueCI, husers, List.pairwise_append]
      refine ⟨hci, by simp, ?_⟩
      intro a ha b hb
      have hbe : b = newU := by simpa using hb
      subst hbe
      show jsToLowerCase a.userName ≠ jsToLowerCase newU.userName
      have h2 : jsToLowerCase newU.userName = jsToLowerCase req1.userName := by
        show jsToLowerCase (jsToLowerCase req1.userName) = jsToLowerCase req1.userName
        exact jsToLowerIdem req1.userName
      rw [h2, ← hlc a ha]
      exact (hnone' a ha).2
    · rw [emailsUnique, husers, List.pairwise_append]
      refine ⟨hem, by simp, ?_⟩
      intro a ha b hb
      have hbe : b = newU := by simpa using hb
      subst hbe
      exact (hnone' a ha).1
  · intro hsame hb1 hb2 hb3 hb4
    have hblank : ([req2.fullName, req2.email, req2.userName, req2.password].any
        fun field => jsTrim field == "") = false := by
      simp only [List.any_cons, List.any_nil, Bool.or_false,
        Bool.or_eq_false_iff, beq_eq_false_iff_ne, ne_eq]
      exact ⟨hb1, hb2, hb3, hb4⟩
    have hpred : ((fun u : Account =>
        (match some req2.email with
         | some e => u.email == e
         | none => false) ||
        (match some req2.userName with
         | some n => u.userName == jsToLowerCase n
         | none => false)) newU) = true := by
      rcases hsame with hn | he
      · simp only [Bool.or_eq_true, beq_iff_eq]
        right
        show jsToLowerCase req1.userName = jsToLowerCase req2.userName
        rw [hn]
      · simp only [Bool.or_eq_true, beq_iff_eq]
        left
        show req1.email = req2.email
        rw [he]
    have hsome : (findOneByUserNameOrEmail db1 (some req2.email)
        (some req2.userName)).isSome := by
      unfold findOneByUserNameOrEmail
      rw [List.find?_isSome]
      exact ⟨newU, by rw [husers]; simp, hpred⟩
    obtain ⟨y, hy⟩ := Option.isSome_iff_exists.mp hsome
    unfold registerUser
    rw [hblank]
    simp only [Bool.false_eq_true, if_false, hy]

/-- Witness for C3 at a concrete input: Bob logs in at time 0 and
presents the returned token both as cookie and in the body — the refresh
handler still throws the `TypeError`; the unreachable remainder, applied
to the extracted token at time 1, would rotate to a different pair and
reject the replayed original with a 401. -/
theorem claim_C3_witness :
    refreshAccessToken dbBobLoggedIn
        { cookiesRefreshToken := some rTok0, bodyRefreshToken := some rTok0 } 1 =
      .error (.typeErr "Cannot read properties of undefined (reading refreshToken)") ∧
    loginUser dbBob (some "bob@x.com") none "pw1" 0 =
      .ok (some vBobLogin, aTok0, rTok0, dbBobLoggedIn) ∧
    (1 : Nat) ≠ 0 ∧ 1 < 0 + REFRESH_TOKEN_EXPIRY ∧
    ∃ a2 r2 db2,
      refreshAccessTokenAfterExtraction dbBobLoggedIn (some rTok0) 1 =
        .ok (a2, r2, db2) ∧
      (a2, r2) ≠ (aTok0, rTok0) ∧
      ∀ t3, ∃ m, refreshAccessTokenAfterExtraction db2 (some rTok0) t3 =
        .error (.api 401 m) :=
  ⟨claim_C3_refresh_always_crashes_before_rotation.1 dbBobLoggedIn
      { cookiesRefreshToken := some rTok0, bodyRefreshToken := some rTok0 } 1,
    rfl, by decide, by decide,
    claim_C3_refresh_always_crashes_before_rotation.2 dbBob (some "bob@x.com")
      none "pw1" 0 1 (some vBobLogin) aTok0 rTok0 dbBobLoggedIn rfl
      (by decide) (by decide)⟩

/-- Witness for C4 at a concrete input: registering `Bob`, then
registering `BOB` (same handle up to letter case, different email) hits
the 409 Conflict error. -/
theorem claim_C4_witness :
    registerUser dbBob
        { fullName := "Bob Two", email := "other@x.com", userName := "BOB",
          password := "pw2",
          files := some { avatar := some ["b.png"], coverImage := none } } =
      .error (.api 409 "User already exists on this email or userName") := by
  have h := claim_C4_conflict_and_uniqueness dbEmpty regReqBob
    { fullName := "Bob Two", email := "other@x.com", userName := "BOB",
      password := "pw2",
      files := some { avatar := some ["b.png"], coverImage := none } }
    (selectUser bobAccount ["password", "refreshToken"]) dbBob rfl
    (by intro u hu; simp [dbEmpty] at hu) List.Pairwise.nil List.Pairwise.nil
  exact h.2 (Or.inl (by decide)) (by decide) (by decide) (by decide) (by decide)

/-- C6: for the first account matching the (lowercased) handle, the
profile reports `subscribersCount` equal to the number of subscription
edges whose channel is this account, `channelsSubscribedToCount` equal
to the number of edges whose subscriber is this account, and
`isSubscribed` true exactly when an edge from the viewer to this account
exists — and false, not an error, when no viewer is supplied. -/
theorem claim_C6_counts_and_viewer_flag
    (db : DB) (hdl : String) (viewer : Option Nat) (u : Account)
    (rest : List Account)
    (hnb : (jsTrim hdl == "") = false)
    (hmatch : db.users.filter (fun x => x.userName == jsToLowerCase hdl) =
      u :: rest) :
    ∃ d, getUserChannelProfile db (some hdl) viewer = .ok d ∧
      lookupField d "subscribersCount" =
        some (.vnat (db.subscriptions.filter (fun s => s.channel == u.id)).length) ∧
      lookupField d "channelsSubscribedToCount" =
        some (.vnat (db.subscriptions.filter (fun s => s.subscriber == u.id)).length) ∧
      (∀ vid, viewer = some vid →
        (lookupField d "isSubscribed" = some (.vbool true) ↔
          ∃ s ∈ db.subscriptions, s.channel = u.id ∧ s.subscriber = vid)) ∧
      (viewer = none → lookupField d "isSubscribed" = some (.vbool false)) := by
  refine ⟨channelDocOf db viewer u, ?_, ?_, ?_, ?_, ?_⟩
  · simp only [getUserChannelProfile, hnb, Bool.false_eq_true, if_false,
      hmatch, List.map_cons]
  · rw [channelDocOf_eq]; rfl
  · rw [channelDocOf_eq]; rfl
  · intro vid hv
    subst hv
    rw [channelDocOf_eq]
    show some (Val.vbool ((db.subscriptions.filter
        (fun s => s.channel == u.id)).any (fun s => s.subscriber == vid))) =
      some (Val.vbool true) ↔ _
    rw [vbool_some_eq]
    simp only [List.any_eq_true, List.mem_filter, beq_iff_eq]
    constructor
    · rintro ⟨s, ⟨hs, hc⟩, hv⟩
      exact ⟨s, hs, hc, hv⟩
    · rintro ⟨s, hs, hc, hv⟩
      exact ⟨s, ⟨hs, hc⟩, hv⟩
  · intro hv
    subst hv
    rw [channelDocOf_eq]; rfl

/-- Witness for C6 at a concrete input: a channel with subscriber edges
from accounts A (id 2) and B (id 3) reports a subscriber count of 2;
viewed by A the flag is true, and with no viewer it is false. -/
theorem claim_C6_witness :
    ∃ d, getUserChannelProfile dbChan (some "chan") (some 2) = .ok d ∧
      lookupField d "subscribersCount" = some (.vnat 2) ∧
      lookupField d "isSubscribed" = some (.vbool true) ∧
      ∃ d0, getUserChannelProfile dbChan (some "chan") none = .ok d0 ∧
        lookupField d0 "isSubscribed" = some (.vbool false) := by
  obtain ⟨d, hok, hc1, hc2, hflag, hnone⟩ :=
    claim_C6_counts_and_viewer_flag dbChan "chan" (some 2) chanAccount []
      (by decide) (by decide)
  obtain ⟨d0, hok0, hc10, hc20, hflag0, hnone0⟩ :=
    claim_C6_counts_and_viewer_flag dbChan "chan" none chanAccount []
      (by decide) (by decide)
  refine ⟨d, hok, ?_, ?_, d0, hok0, hnone0 rfl⟩
  · rw [hc1]; rfl
  · exact (hflag 2 rfl).mpr
      ⟨{ id := 1, subscriber := 2, channel := 1 }, by decide, rfl, rfl⟩

/-- C7, counterexample at a concrete input: a successful channel-profile
payload carries the account's email (the source's `$project` includes
`email: 1`), so the payload consists of strictly more than the handle,
display name, avatar, cover image, counts and viewer flag that the claim
allows. -/
theorem claim_C7_counterexample :
    ∃ d, getUserChannelProfile dbChan (some "chan") none = .ok d ∧
      lookupField d "email" = some (.vstr "chan@x.com") :=
  ⟨channelDocOf dbChan none chanAccount, rfl, rfl⟩

/-- C7 as amended: every successful channel-profile payload consists of
exactly the document id, handle, email, display name, avatar, cover
image, the two counts and the viewer flag — and never the password,
token-slot or watch-history fields. -/
theorem claim_C7_projection_fields
    (db : DB) (hdl : String) (viewer : Option Nat) (u : Account)
    (rest : List Account)
    (hnb : (jsTrim hdl == "") = false)
    (hmatch : db.users.filter (fun x => x.userName == jsToLowerCase hdl) =
      u :: rest) :
    getUserChannelProfile db (some hdl) viewer = .ok (channelDocOf db viewer u) ∧
    docKeys (channelDocOf db viewer u) =
      ["_id", "userName", "email", "fullName", "avatar", "coverImage",
       "subscribersCount", "channelsSubscribedToCount", "isSubscribed"] ∧
    lookupField (channelDocOf db viewer u) "password" = none ∧
    lookupField (channelDocOf db viewer u) "refreshToken" = none ∧
    lookupField (channelDocOf db viewer u) "watchHistory" = none := by
  refine ⟨?_, ?_, ?_, ?_, ?_⟩
  · simp only [getUserChannelProfile, hnb, Bool.false_eq_true, if_false,
      hmatch, List.map_cons]
  · rw [channelDocOf_eq]; rfl
  · rw [channelDocOf_eq]; rfl
  · rw [channelDocOf_eq]; rfl
  · rw [channelDocOf_eq]; rfl

/-- Witness for the amended C7 at a concrete input. -/
theorem claim_C7_witness :
    getUserChannelProfile dbChan (some "chan") none =
      .ok (channelDocOf dbChan none chanAccount) ∧
    docKeys (channelDocOf dbChan none chanAccount) =
      ["_id", "userName", "email", "fullName", "avatar", "coverImage",
       "subscribersCount", "channelsSubscribedToCount", "isSubscribed"] ∧
    lookupField (channelDocOf dbChan none chanAccount) "password" = none ∧
    lookupField (channelDocOf dbChan none chanAccount) "refreshToken" = none ∧
    lookupField (channelDocOf dbChan none chanAccount) "watchHistory" = none :=
  claim_C7_projection_fields dbChan "chan" none chanAccount []
    (by decide) (by decide)

/-- C9, counterexample at a concrete input: when the old password does
not match, `changeCurrentPassword` fails with status 400 (the
ValidationError status of the error taxonomy), not with a 401
Unauthorized error as the claim states. -/
theorem claim_C9_counterexample :
    changeCurrentPassword dbBob 1 "zz" "pw2" =
      .error (.api 400 "Invalid old password") ∧
    ∀ m : String,
      changeCurrentPassword dbBob 1 "zz" "pw2" ≠ .error (.api 401 m) := by
  refine ⟨rfl, ?_⟩
  intro m h
  rw [show changeCurrentPassword dbBob 1 "zz" "pw2" =
      .error (.api 400 "Invalid old password") from rfl] at h
  have h2 := Except.error.inj h
  injection h2 with hs hm
  exact absurd hs (by decide)

/-- C9 as amended: for every stored account, `changeCurrentPassword`
fails with the 400 `ApiError` "Invalid old password" when the supplied
old password does not match the stored hash, and otherwise replaces the
stored hash with the hash of the new password. -/
theorem claim_C9_change_password
    (db : DB) (uid : Nat) (u : Account) (old new : String)
    (hfind : findById db uid = some u) :
    (isPasswordCorrect u old = false →
      changeCurrentPassword db uid old new =
        .error (.api 400 "Invalid old password")) ∧
    (isPasswordCorrect u old = true →
      changeCurrentPassword db uid old new =
        .ok ((), updateById db u.id
          (fun x => { x with passwordHash := hashPassword new })) ∧
      findById (updateById db u.id
          (fun x => { x with passwordHash := hashPassword new })) uid =
        some { u with passwordHash := hashPassword new }) := by
  have huid : u.id = uid := by simpa using List.find?_some hfind
  constructor
  · intro hbad
    simp only [changeCurrentPassword, hfind, hbad, Bool.not_false, if_true]
  · intro hgood
    refine ⟨?_, ?_⟩
    · simp only [changeCurrentPassword, hfind, hgood, Bool.not_true,
        Bool.false_eq_true, if_false]
    · rw [findById_updateById db u.id uid
          (fun x => { x with passwordHash := hashPassword new })
          (fun x => rfl), hfind]
      simp [huid]

/-- Witness for the amended C9 at a concrete input. -/
theorem claim_C9_witness :
    (findById dbBob 1 = some bobAccount) ∧
    (isPasswordCorrect bobAccount "zz" = false) ∧
    (isPasswordCorrect bobAccount "pw1" = true) ∧
    changeCurrentPassword dbBob 1 "zz" "pw2" =
      .error (.api 400 "Invalid old password") ∧
    (changeCurrentPassword dbBob 1 "pw1" "pw2" =
      .ok ((), updateById dbBob bobAccount.id
        (fun x => { x with passwordHash := hashPassword "pw2" })) ∧
     findById (updateById dbBob bobAccount.id
        (fun x => { x with passwordHash := hashPassword "pw2" })) 1 =
      some { bobAccount with passwordHash := hashPassword "pw2" }) :=
  ⟨rfl, by decide, by decide,
    (claim_C9_change_password dbBob 1 bobAccount "zz" "pw2" rfl).1 (by decide),
    (claim_C9_change_password dbBob 1 bobAccount "pw1" "pw2" rfl).2 (by decide)⟩

/-- C10: for every account present in the store, the watch-history
request succeeds, and each returned item carries its owner as a single
embedded document — the projection of the first account matching the
owner reference — or carries no owner field at all when the owning
account no longer exists. -/
theorem claim_C10_owner_single_or_absent
    (db : DB) (uid : Nat) (u : Account) (rest : List Account)
    (hmatch : db.users.filter (fun x => x.id == uid) = u :: rest) :
    ∃ items, getWatchHistory db uid = .ok items ∧
      items = u.watchHistory.filterMap (fun vid =>
        (db.videos.find? (fun x => x.id == vid)).map (watchItemDoc db)) ∧
      ∀ d ∈ items, ∃ v, v ∈ db.videos ∧ d = watchItemDoc db v ∧
        ((∃ ow rest2,
            db.users.filter (fun x => x.id == v.owner) = ow :: rest2 ∧
            lookupField d "owner" =
              some (.vdoc (projectInclude ownerProjectionFields (userDoc ow)))) ∨
         (db.users.filter (fun x => x.id == v.owner) = [] ∧
            lookupField d "owner" = none)) := by
  refine ⟨_, ?_, rfl, ?_⟩
  · simp only [getWatchHistory, hmatch]
  · intro d hd
    rw [List.mem_filterMap] at hd
    obtain ⟨vid, hvid, hsome⟩ := hd
    rw [Option.map_eq_some'] at hsome
    obtain ⟨v, hfind, hd2⟩ := hsome
    subst hd2
    refine ⟨v, List.mem_of_find?_eq_some hfind, rfl, ?_⟩
    cases hflt : db.users.filter (fun x => x.id == v.owner) with
    | nil =>
        right
        refine ⟨rfl, ?_⟩
        simp only [watchItemDoc, hflt]
        rfl
    | cons ow rest2 =>
        left
        refine ⟨ow, rest2, rfl, ?_⟩
        simp only [watchItemDoc, hflt]
        rfl

/-- Witness for C10 at a concrete input: the fixture history resolves to
three items; video 10 and 11 carry their owner as a single document and
video 12, whose owner is gone, carries no owner field. -/
theorem claim_C10_witness :
    ∃ items, getWatchHistory dbWH 1 = .ok items ∧
      ∀ d ∈ items, ∃ v, v ∈ dbWH.videos ∧ d = watchItemDoc dbWH v ∧
        ((∃ ow rest2,
            dbWH.users.filter (fun x => x.id == v.owner) = ow :: rest2 ∧
            lookupField d "owner" =
              some (.vdoc (projectInclude ownerProjectionFields (userDoc ow)))) ∨
         (dbWH.users.filter (fun x => x.id == v.owner) = [] ∧
            lookupField d "owner" = none)) := by
  obtain ⟨items, hok, hitems, hprop⟩ :=
    claim_C10_owner_single_or_absent dbWH 1 viewerAcc [] (by decide)
  exact ⟨items, hok, hprop⟩

end YtBackend
